import Mathlib

/-!
Shallow embedding of the reclame-aqui-backend core: the scraper
(src/scraper.js style code, fetch and parse of complaint cards), the
database layer (src/backend/src/database.js) and the scheduler plus the
HTTP command surface (server routes).  Machine state (the SQL tables and
the in-memory job map) is passed explicitly; `async` I/O outcomes (the
axios result, the per-statement outcome of a SQL query) are parameters of
the embedded functions.
-/

namespace ReclameAqui

/-- A complaint record, with the fields pushed by the scraper and stored by
the `reclamacoes` table: `id` is the external identifier (nullable), and
`coletadoEm` is the collection timestamp, abstracted as a natural number so
that the SQL `ORDER BY coletado_em DESC` is an order on `Nat`. -/
structure Reclamacao where
  id : Option String
  titulo : String
  descricao : String
  status : String
  data : String
  «local» : String
  empresa : String
  link : Option String
  coletadoEm : Nat
deriving DecidableEq

/-- CONFIG.MAX_RECLAMACOES from the scraper configuration block. -/
def CONFIG_MAX_RECLAMACOES : Nat := 20

/-- CONFIG.BASE_URL from the scraper configuration block. -/
def CONFIG_BASE_URL : String := "https://www.reclameaqui.com.br"

/-- One complaint card as selected by the CSS query: the raw text of each
sub-node before the `.trim()` calls, and the optional `href` of its first
anchor. -/
structure Card where
  tituloRaw : String
  descricaoRaw : String
  statusRaw : String
  dataRaw : String
  localRaw : String
  href : Option String
deriving DecidableEq

/-- The identifier extraction `item.find("a").attr("href")?.split("/").pop() || null`:
the last `/`-separated segment of the href, with the empty string (a falsy
value in the source language) coerced to null. -/
def extractId (href : Option String) : Option String :=
  match href with
  | none => none
  | some h =>
    match (h.splitOn "/").getLast? with
    | none => none
    | some seg => if seg = "" then none else some seg

/-- The `.trim()` call on an extracted text node: drop leading and trailing
whitespace. -/
def trimText (s : String) : String :=
  ⟨((s.data.dropWhile Char.isWhitespace).reverse.dropWhile Char.isWhitespace).reverse⟩

/-- Per-card extraction body of buscarReclamacoes: trims every text field,
keeps the card only when the trimmed title is non-empty (the `if (titulo)`
truthiness test), and applies the `||`-defaults to the other fields.
`agoraIso` stands for `new Date().toISOString()` and `agora` for the same
instant as an ordinal, both fixed at parse time. -/
def parseCard (empresa agoraIso : String) (agora : Nat) (c : Card) : Option Reclamacao :=
  let titulo := trimText c.tituloRaw
  let descricao := trimText c.descricaoRaw
  let status := trimText c.statusRaw
  let data := trimText c.dataRaw
  let loc := trimText c.localRaw
  let id := extractId c.href
  if titulo ≠ "" then
    some
      { id := id
        titulo := titulo
        descricao := if descricao ≠ "" then descricao else "Sem descrição"
        status := if status ≠ "" then status else "Não informado"
        data := if data ≠ "" then data else agoraIso
        «local» := if loc ≠ "" then loc else "Não informado"
        empresa := empresa
        link := match id with
          | some i => some (CONFIG_BASE_URL ++ "/reclamacao/" ++ i)
          | none => none
        coletadoEm := agora }
  else
    none

/-- The card loop of buscarReclamacoes: `.each` over the selected nodes with
`if (index >= CONFIG.MAX_RECLAMACOES) return false` (stop scanning at the
cap), then the per-card extraction. -/
def extrairReclamacoes (empresa agoraIso : String) (agora : Nat) (cards : List Card) :
    List Reclamacao :=
  (cards.take CONFIG_MAX_RECLAMACOES).filterMap (parseCard empresa agoraIso agora)

/-- Outcome of the axios GET for the listing page: a parsed document (the
list of nodes matched by the card selector), a response carrying an HTTP
error status (`erro.response`), a request that got no response at all
(`erro.request`), or any other failure. -/
inductive AxiosOutcome where
  | success (cards : List Card)
  | responseError (status : Nat)
  | requestError
  | otherError (mensagem : String)
deriving DecidableEq

/-- The errors thrown by buscarReclamacoes: the three specific `new Error`
messages of its catch block, plus the rethrow of the original axios error
(which still carries the upstream status when a response was received). -/
inductive FetchError where
  | notFound
  | blocked
  | network
  | unknownResponse (status : Nat)
  | unknownError (mensagem : String)
deriving DecidableEq

/-- buscarReclamacoes for a given entity name: on success the card list is
extracted (an empty selector match yields an empty list, not an error); on
failure the catch block maps status 404 to the not-found error, 403 to the
blocked error, a response-less request to the network error, and rethrows
the original error otherwise. The slug formatting and URL construction only
influence which document comes back, which is the `outcome` parameter here. -/
def buscarReclamacoes (nomeEmpresa agoraIso : String) (agora : Nat) (outcome : AxiosOutcome) :
    Except FetchError (List Reclamacao) :=
  match outcome with
  | .success cards => .ok (extrairReclamacoes nomeEmpresa agoraIso agora cards)
  | .responseError status =>
      if status = 404 then .error .notFound
      else if status = 403 then .error .blocked
      else .error (.unknownResponse status)
  | .requestError => .error .network
  | .otherError m => .error (.unknownError m)

/-! ## Database layer (database.js) -/

/-- The unique-constraint arbiter of `ON CONFLICT (id_externo, empresa)`:
two rows conflict only when both external ids are non-null and equal and the
entities are equal. SQL null semantics: a null `id_externo` never conflicts
with anything, so such rows are never deduplicated. -/
def keyConflict (r linha : Reclamacao) : Bool :=
  match r.id, linha.id with
  | some a, some b => a == b && r.empresa == linha.empresa
  | _, _ => false

/-- One `INSERT ... ON CONFLICT (id_externo, empresa) DO NOTHING` into the
`reclamacoes` table: if a stored row conflicts, the statement succeeds but
stores nothing; otherwise the row is appended. -/
def insertDoNothing (tabela : List Reclamacao) (r : Reclamacao) : List Reclamacao :=
  if tabela.any (keyConflict r) then tabela else tabela ++ [r]

/-- Outcome of one SQL statement as seen by the per-record try/catch of
salvarReclamacoesDB: success, or a storage failure with a SQLSTATE code
(the code `23505` is the unique-violation code tested in the catch). -/
inductive QueryOutcome where
  | ok
  | fail (code : String)
deriving DecidableEq

/-- Return value of salvarReclamacoesDB: `{ salvos, duplicados }`. -/
structure SaveResult where
  salvos : Nat
  duplicados : Nat
deriving DecidableEq

/-- The `for (const reclamacao of reclamacoes)` loop of salvarReclamacoesDB
with its two counters: on a successful statement the insert is applied and
`salvos` is incremented (the statement succeeds even when `DO NOTHING`
swallowed a conflict); on a failed statement the catch increments
`duplicados` when the code is `23505` and otherwise only logs, and the loop
continues with the next record either way. -/
def salvarLoop :
    List (Reclamacao × QueryOutcome) → List Reclamacao → Nat → Nat →
    SaveResult × List Reclamacao
  | [], tabela, salvos, duplicados => (⟨salvos, duplicados⟩, tabela)
  | (r, .ok) :: resto, tabela, salvos, duplicados =>
      salvarLoop resto (insertDoNothing tabela r) (salvos + 1) duplicados
  | (_, .fail code) :: resto, tabela, salvos, duplicados =>
      if code = "23505" then salvarLoop resto tabela salvos (duplicados + 1)
      else salvarLoop resto tabela salvos duplicados

/-- salvarReclamacoesDB over a batch paired with the storage outcome of each
per-record statement outcome, returning the `{ salvos, duplicados }` result and the
table state. -/
def salvarReclamacoesDB (tentativas : List (Reclamacao × QueryOutcome)) (tabela : List Reclamacao) :
    SaveResult × List Reclamacao :=
  salvarLoop tentativas tabela 0 0

/-- salvarReclamacoesDB on the happy path: every statement succeeds. -/
def salvarReclamacoesOk (reclamacoes : List Reclamacao) (tabela : List Reclamacao) :
    SaveResult × List Reclamacao :=
  salvarReclamacoesDB (reclamacoes.map (fun r => (r, QueryOutcome.ok))) tabela

/-- The table-state component of a happy-path batch save: the fold of the
`ON CONFLICT DO NOTHING` inserts, record by record. -/
def aplicarOk (reclamacoes : List Reclamacao) (tabela : List Reclamacao) : List Reclamacao :=
  reclamacoes.foldl insertDoNothing tabela

/-- The `ORDER BY coletado_em DESC` order: later collection first. -/
def coletadoDesc (a b : Reclamacao) : Prop := b.coletadoEm ≤ a.coletadoEm

instance : DecidableRel coletadoDesc := fun a b => Nat.decLe b.coletadoEm a.coletadoEm

instance : IsTotal Reclamacao coletadoDesc :=
  ⟨fun a b => Nat.le_total b.coletadoEm a.coletadoEm⟩

instance : IsTrans Reclamacao coletadoDesc :=
  ⟨fun _ _ _ h1 h2 => Nat.le_trans h2 h1⟩

/-- buscarReclamacoesDB: `SELECT * FROM reclamacoes WHERE empresa = $1 ORDER
BY coletado_em DESC LIMIT $2`, with `limite = 50` when the caller passes
none. -/
def buscarReclamacoesDB (tabela : List Reclamacao) (empresa : String) (limite : Nat := 50) :
    List Reclamacao :=
  (List.insertionSort coletadoDesc (tabela.filter (fun r => r.empresa == empresa))).take limite

/-! ## Scheduler (scheduler.js) -/

/-- The own properties of the `conversoes` object literal of
intervalParaCron: the recognized interval tokens and their cron strings. -/
def conversoes (chave : String) : Option String :=
  if chave = "10min" then some "*/10 * * * *"
  else if chave = "30min" then some "*/30 * * * *"
  else if chave = "1h" then some "0 * * * *"
  else if chave = "3h" then some "0 */3 * * *"
  else if chave = "6h" then some "0 */6 * * *"
  else if chave = "12h" then some "0 */12 * * *"
  else if chave = "diario" then some "0 9 * * *"
  else if chave = "1d" then some "0 9 * * *"
  else if chave = "semanal" then some "0 9 * * 1"
  else if chave = "1w" then some "0 9 * * 1"
  else none

/-- The recognized interval vocabulary (the keys of `conversoes`). -/
def tokensReconhecidos : List String :=
  ["10min", "30min", "1h", "3h", "6h", "12h", "diario", "1d", "semanal", "1w"]

/-- Property names an object literal inherits from `Object.prototype` in the
source language: bracket access on `conversoes` with one of these keys
yields the inherited member (a function, or for `__proto__` an object), not
`undefined`. -/
def objectPrototypeKeys : List String :=
  ["constructor", "hasOwnProperty", "isPrototypeOf", "propertyIsEnumerable",
   "toLocaleString", "toString", "valueOf", "__defineGetter__", "__defineSetter__",
   "__lookupGetter__", "__lookupSetter__", "__proto__"]

/-- A value produced by bracket access on the `conversoes` object literal:
one of its own string properties, a member inherited from
`Object.prototype`, or `undefined`. -/
inductive JsValue where
  | str (s : String)
  | protoMember (nome : String)
  | indefinido
deriving DecidableEq

/-- Bracket access `conversoes[chave]`: own property first, then the
prototype chain, then `undefined`. -/
def jsGet (chave : String) : JsValue :=
  match conversoes chave with
  | some s => .str s
  | none => if objectPrototypeKeys.contains chave then .protoMember chave else .indefinido

/-- Truthiness of a `JsValue`: the empty string and `undefined` are falsy;
functions and objects are truthy. -/
def jsTruthy : JsValue → Bool
  | .str s => s != ""
  | .protoMember _ => true
  | .indefinido => false

/-- The `.toLowerCase()` call on the interval token (ASCII case folding,
which covers the whole recognized vocabulary). -/
def toLowerCase (s : String) : String := ⟨s.data.map Char.toLower⟩

/-- intervalParaCron:
`return conversoes[intervalo.toLowerCase()] || conversoes["1h"]`. -/
def intervalParaCron (intervalo : String) : JsValue :=
  let v := jsGet (toLowerCase intervalo)
  if jsTruthy v then v else jsGet "1h"

/-- An entry of the `jobsAtivos` map: the raw interval token, the start
time (`iniciado`), and the cron expression value passed to the recurring
task (the `job` handle is represented by the expression that schedules it). -/
structure JobInfo where
  intervalo : String
  iniciado : Nat
  cronExpr : JsValue
deriving DecidableEq

/-- The in-memory `jobsAtivos` map, as an association list keyed by entity. -/
abbrev JobsAtivos := List (String × JobInfo)

/-- pararMonitoramento: when the map has the entity, stop the job and delete
the entry, returning true; otherwise return false and leave the map alone. -/
def pararMonitoramento (empresa : String) (jobs : JobsAtivos) : Bool × JobsAtivos :=
  if jobs.any (fun p => p.1 == empresa) then
    (true, jobs.filter (fun p => !(p.1 == empresa)))
  else
    (false, jobs)

/-- iniciarMonitoramento: stop any previous job for the entity, convert the
interval to a cron expression, schedule the recurring task and record it in
`jobsAtivos` under the entity. The immediate fire-and-forget
executarMonitoramento call touches only the complaints store, not the job
map embedded here. -/
def iniciarMonitoramento (empresa intervalo : String) (agora : Nat) (jobs : JobsAtivos) :
    JobsAtivos :=
  let aposParar := (pararMonitoramento empresa jobs).2
  let expressaoCron := intervalParaCron intervalo
  aposParar ++ [(empresa, ⟨intervalo, agora, expressaoCron⟩)]

/-! ## Configuration ledger and HTTP command surface (server.js) -/

/-- A row of the `configuracoes` table. -/
structure ConfigRow where
  empresa : String
  intervalo : String
  ativo : Bool
  criadoEm : Nat
  atualizadoEm : Nat
deriving DecidableEq

/-- salvarConfiguracao: `INSERT INTO configuracoes (empresa, intervalo,
ativo) VALUES ($1, $2, true) ON CONFLICT (empresa) DO UPDATE SET intervalo,
ativo = true, atualizado_em = CURRENT_TIMESTAMP`. -/
def salvarConfiguracao (empresa intervalo : String) (agora : Nat)
    (configuracoes : List ConfigRow) : List ConfigRow :=
  if configuracoes.any (fun c => c.empresa == empresa) then
    configuracoes.map (fun c =>
      if c.empresa == empresa then
        { c with intervalo := intervalo, ativo := true, atualizadoEm := agora }
      else c)
  else
    configuracoes ++ [⟨empresa, intervalo, true, agora, agora⟩]

/-- The state the two monitoring routes can reach: the durable
`configuracoes` table and the in-memory job map. -/
structure AppState where
  configuracoes : List ConfigRow
  jobs : JobsAtivos
deriving DecidableEq

/-- Responses of the monitoring routes, keyed by HTTP status: the 200 JSON
success payload message, the 400 validation error, and the catch-all 500
with its `detalhes` message. -/
inductive Resposta where
  | ok (mensagem : String)
  | badRequest (erro : String)
  | serverError (erro detalhes : String)
deriving DecidableEq

/-- Outcome of the awaited salvarConfiguracao write inside the start route:
either the statement commits, or the storage layer throws with a message. -/
inductive LedgerOutcome where
  | ok
  | fail (mensagem : String)
deriving DecidableEq

/-- Truthiness test `!empresa` on a request-body string field: absent or
empty means falsy. -/
def jsFalsyStr : Option String → Bool
  | none => true
  | some s => s == ""

/-- POST /api/monitoramento/iniciar: validate the two body fields, await the
salvarConfiguracao ledger write (a thrown storage error is caught and
surfaces as a 500 with its message, before any job is touched), then
install the in-memory job with iniciarMonitoramento and answer 200. -/
def postIniciar (empresa intervalo : Option String) (escrita : LedgerOutcome) (agora : Nat)
    (st : AppState) : Resposta × AppState :=
  if jsFalsyStr empresa || jsFalsyStr intervalo then
    (.badRequest "Empresa e intervalo são obrigatórios", st)
  else
    let e := empresa.getD ""
    let i := intervalo.getD ""
    match escrita with
    | .fail m => (.serverError "Erro ao iniciar monitoramento" m, st)
    | .ok =>
        let configuracoes := salvarConfiguracao e i agora st.configuracoes
        let jobs := iniciarMonitoramento e i agora st.jobs
        (.ok ("Monitoramento iniciado para " ++ e), ⟨configuracoes, jobs⟩)

/-- POST /api/monitoramento/parar: validate the body field, call
pararMonitoramento (its boolean result is ignored by the route) and answer
200 either way. The route never touches the `configuracoes` table. -/
def postParar (empresa : Option String) (st : AppState) : Resposta × AppState :=
  if jsFalsyStr empresa then
    (.badRequest "Nome da empresa é obrigatório", st)
  else
    let e := empresa.getD ""
    let jobs := (pararMonitoramento e st.jobs).2
    (.ok ("Monitoramento parado para " ++ e), ⟨st.configuracoes, jobs⟩)

/-! ## Concrete sample data used by witnesses and counterexamples -/

/-- A sample complaint record with a non-null external id. -/
def recExemplo : Reclamacao :=
  ⟨some "12345", "Produto com defeito", "Sem descrição", "Não informado",
   "2024-01-01", "Não informado", "Empresa X", none, 5⟩

/-- A sample complaint record whose external id is null, as the scraper
produces when no anchor href is found. -/
def recSemId : Reclamacao :=
  ⟨none, "Cobrança indevida", "Sem descrição", "Não informado",
   "2024-01-02", "Não informado", "Empresa X", none, 7⟩

/-- A sample complaint record of a different entity. -/
def recOutraEmpresa : Reclamacao :=
  ⟨some "99", "Atraso na entrega", "Sem descrição", "Não informado",
   "2024-01-03", "Não informado", "Outra Empresa", none, 9⟩

/-- A sample stored table holding the three sample records. -/
def tabelaExemplo : List Reclamacao := [recExemplo, recSemId, recOutraEmpresa]

/-! ## Helper lemmas about the deduplicating store -/

/-- On the happy path the loop counts every record as saved (the statement
succeeds even when the conflict clause stored nothing), never as duplicate,
and the final table is the fold of the inserts. -/
theorem salvarLoop_ok_eq (reclamacoes : List Reclamacao) :
    ∀ (tabela : List Reclamacao) (a b : Nat),
      salvarLoop (reclamacoes.map (fun r => (r, QueryOutcome.ok))) tabela a b =
        (⟨a + reclamacoes.length, b⟩, aplicarOk reclamacoes tabela) := by
  induction reclamacoes with
  | nil => intro tabela a b; simp [salvarLoop, aplicarOk]
  | cons r resto ih =>
      intro tabela a b
      simp only [List.map_cons, salvarLoop, aplicarOk, List.foldl_cons]
      rw [ih]
      simp [aplicarOk]
      omega

/-- Closed form of the happy-path save. -/
theorem salvarReclamacoesOk_eq (reclamacoes tabela : List Reclamacao) :
    salvarReclamacoesOk reclamacoes tabela =
      (⟨reclamacoes.length, 0⟩, aplicarOk reclamacoes tabela) := by
  simpa [salvarReclamacoesOk, salvarReclamacoesDB] using salvarLoop_ok_eq reclamacoes tabela 0 0

/-- A record with a non-null external id conflicts with itself. -/
theorem keyConflict_self (r : Reclamacao) (h : r.id.isSome) : keyConflict r r = true := by
  obtain ⟨a, ha⟩ := Option.isSome_iff_exists.mp h
  simp [keyConflict, ha]

/-- Inserting never removes a row, so any row-level fact survives. -/
theorem any_insertDoNothing (tabela : List Reclamacao) (r : Reclamacao) (p : Reclamacao → Bool)
    (h : tabela.any p = true) : (insertDoNothing tabela r).any p = true := by
  unfold insertDoNothing
  split
  · exact h
  · simp [List.any_append, h]

/-- Folding inserts never removes a row. -/
theorem any_aplicarOk (reclamacoes : List Reclamacao) :
    ∀ (tabela : List Reclamacao) (p : Reclamacao → Bool), tabela.any p = true →
      (aplicarOk reclamacoes tabela).any p = true := by
  induction reclamacoes with
  | nil => intro tabela p h; simpa [aplicarOk] using h
  | cons r resto ih =>
      intro tabela p h
      simpa [aplicarOk, List.foldl_cons] using
        ih (insertDoNothing tabela r) p (any_insertDoNothing tabela r p h)

/-- After inserting a record with a non-null id, its key is present. -/
theorem any_keyConflict_insert_self (tabela : List Reclamacao) (r : Reclamacao)
    (h : r.id.isSome) : (insertDoNothing tabela r).any (keyConflict r) = true := by
  unfold insertDoNothing
  split
  · assumption
  · simp [List.any_append, keyConflict_self r h]

/-- After a happy-path batch, the key of every batch record with a non-null
id is present in the table. -/
theorem conflito_after_aplicarOk (reclamacoes : List Reclamacao) :
    ∀ (tabela : List Reclamacao) (r : Reclamacao), r ∈ reclamacoes → r.id.isSome →
      (aplicarOk reclamacoes tabela).any (keyConflict r) = true := by
  induction reclamacoes with
  | nil => intro tabela r hr; cases hr
  | cons x resto ih =>
      intro tabela r hr hid
      rcases List.mem_cons.mp hr with h | h
      · subst h
        simpa [aplicarOk, List.foldl_cons] using
          any_aplicarOk resto (insertDoNothing tabela r) (keyConflict r)
            (any_keyConflict_insert_self tabela r hid)
      · simpa [aplicarOk, List.foldl_cons] using ih (insertDoNothing tabela x) r h hid

/-- A batch every one of whose keys is already present changes nothing. -/
theorem aplicarOk_of_present (reclamacoes : List Reclamacao) :
    ∀ tabela : List Reclamacao,
      (∀ r ∈ reclamacoes, tabela.any (keyConflict r) = true) →
      aplicarOk reclamacoes tabela = tabela := by
  induction reclamacoes with
  | nil => intro tabela _; rfl
  | cons x resto ih =>
      intro tabela h
      have hx : insertDoNothing tabela x = tabela := by
        unfold insertDoNothing
        simp [h x (List.mem_cons_self x resto)]
      calc aplicarOk (x :: resto) tabela = aplicarOk resto (insertDoNothing tabela x) := by
            simp [aplicarOk, List.foldl_cons]
        _ = aplicarOk resto tabela := by rw [hx]
        _ = tabela := ih tabela (fun r hr => h r (List.mem_cons_of_mem x hr))

/-- Skipping a record whose statement failed with a code other than 23505
changes neither the counters nor the table, and the rest of the batch is
still processed. -/
theorem salvarLoop_fail_skip (xs : List (Reclamacao × QueryOutcome)) :
    ∀ (ys : List (Reclamacao × QueryOutcome)) (r : Reclamacao) (code : String)
      (tabela : List Reclamacao) (a b : Nat), code ≠ "23505" →
      salvarLoop (xs ++ (r, QueryOutcome.fail code) :: ys) tabela a b =
        salvarLoop (xs ++ ys) tabela a b := by
  induction xs with
  | nil =>
      intro ys r code tabela a b h
      simp [salvarLoop, h]
  | cons x resto ih =>
      intro ys r code tabela a b h
      obtain ⟨rx, ox⟩ := x
      cases ox with
      | ok => simpa [salvarLoop] using ih ys r code (insertDoNothing tabela rx) (a + 1) b h
      | fail c =>
          by_cases hc : c = "23505" <;>
            simp [salvarLoop, hc] <;> [exact ih ys r code tabela a (b + 1) h;
              exact ih ys r code tabela a b h]

/-! ## Claim theorems -/

/-- Claim C1 (code bug): the claim says a second application of the same
batch returns inserted = 0 and duplicate = |B|; the code instead counts
every record of the second pass as saved, because the ON CONFLICT DO
NOTHING clause makes the statement succeed on a duplicate key, so the
catch branch that increments the duplicate counter on SQLSTATE 23505 is
unreachable. At the failing input, a one-record batch applied twice: the
first call returns { salvos := 1, duplicados := 0 }, the second call also
returns { salvos := 1, duplicados := 0 } even though the table did not
grow, instead of the claimed { salvos := 0, duplicados := 1 }. -/
theorem c1_segunda_passada_conta_duplicata_como_salva :
    (salvarReclamacoesOk [recExemplo] []).1 = ⟨1, 0⟩ ∧
    (salvarReclamacoesOk [recExemplo] (salvarReclamacoesOk [recExemplo] []).2).1 = ⟨1, 0⟩ ∧
    (salvarReclamacoesOk [recExemplo] (salvarReclamacoesOk [recExemplo] []).2).2 = [recExemplo] ∧
    ¬ (salvarReclamacoesOk [recExemplo] (salvarReclamacoesOk [recExemplo] []).2).1 = ⟨0, 1⟩ := by
  decide

/-- Claim C2, counterexample: for a batch holding a record whose external
id is null, re-applying the batch does not leave the stored state
unchanged — the SQL unique constraint treats nulls as distinct, so the
second pass appends a second copy of the row. -/
theorem c2_contraexemplo_id_nulo :
    (salvarReclamacoesOk [recSemId] (salvarReclamacoesOk [recSemId] []).2).2 ≠
      (salvarReclamacoesOk [recSemId] []).2 ∧
    (salvarReclamacoesOk [recSemId] (salvarReclamacoesOk [recSemId] []).2).2.length = 2 := by
  decide

/-- Claim C2 as amended: for a record whose (non-null external id, entity)
key is already present, the insert skips and never overwrites the stored
row; and for a batch all of whose records carry a non-null external id,
re-applying the batch in any insertion order leaves the stored state
exactly as after the first application — zero new rows. -/
theorem c2_reaplicacao_idempotente (B B2 tabela : List Reclamacao)
    (hperm : B2.Perm B) (hids : ∀ r ∈ B, r.id.isSome) :
    (∀ (r : Reclamacao) (t : List Reclamacao),
        t.any (keyConflict r) = true → insertDoNothing t r = t) ∧
    (salvarReclamacoesOk B2 (salvarReclamacoesOk B tabela).2).2 =
      (salvarReclamacoesOk B tabela).2 := by
  constructor
  · intro r t h
    unfold insertDoNothing
    simp [h]
  · rw [salvarReclamacoesOk_eq B tabela, salvarReclamacoesOk_eq B2 (aplicarOk B tabela)]
    exact aplicarOk_of_present B2 (aplicarOk B tabela) fun r hr =>
      conflito_after_aplicarOk B tabela r (hperm.subset hr) (hids r (hperm.subset hr))

/-- Witness for the amended claim C2 at a concrete input. -/
theorem c2_reaplicacao_idempotente_witness :
    (salvarReclamacoesOk [recExemplo] (salvarReclamacoesOk [recExemplo] []).2).2 =
      (salvarReclamacoesOk [recExemplo] []).2 :=
  (c2_reaplicacao_idempotente [recExemplo] [recExemplo] [] (List.Perm.refl _) (by decide)).2

/-- Claim C10: a record whose statement fails with a storage error other
than the duplicate-key code 23505 never aborts the batch save and never
surfaces to the caller — the loop only logs, every remaining record is
still attempted, the failing record enters neither counter, and the table
is untouched by it. Removing such a record from the batch gives exactly
the same result. -/
theorem c10_falha_individual_nao_aborta (xs ys : List (Reclamacao × QueryOutcome))
    (r : Reclamacao) (code : String) (hcode : code ≠ "23505") (tabela : List Reclamacao) :
    salvarReclamacoesDB (xs ++ (r, QueryOutcome.fail code) :: ys) tabela =
      salvarReclamacoesDB (xs ++ ys) tabela :=
  salvarLoop_fail_skip xs ys r code tabela 0 0 hcode

/-- Witness for claim C10 at a concrete input: a connection-failure code. -/
theorem c10_falha_individual_nao_aborta_witness :
    salvarReclamacoesDB
        [(recSemId, QueryOutcome.fail "08006"), (recOutraEmpresa, QueryOutcome.ok)]
        [recExemplo] =
      salvarReclamacoesDB [(recOutraEmpresa, QueryOutcome.ok)] [recExemplo] :=
  c10_falha_individual_nao_aborta [] [(recOutraEmpresa, QueryOutcome.ok)] recSemId "08006"
    (by decide) [recExemplo]

/-- A key outside the recognized vocabulary is not an own property of the
conversion object. -/
theorem conversoes_eq_none (chave : String) (h : chave ∉ tokensReconhecidos) :
    conversoes chave = none := by
  simp [tokensReconhecidos] at h
  obtain ⟨h1, h2, h3, h4, h5, h6, h7, h8, h9, h10⟩ := h
  simp [conversoes, h1, h2, h3, h4, h5, h6, h7, h8, h9, h10]

/-- Bracket access with a key that is neither an own property nor inherited
from the object prototype yields undefined. -/
theorem jsGet_eq_indefinido (chave : String) (h1 : chave ∉ tokensReconhecidos)
    (h2 : chave ∉ objectPrototypeKeys) : jsGet chave = JsValue.indefinido := by
  have hc := conversoes_eq_none chave h1
  simp [jsGet, hc, h2]

/-- Claim C3, counterexample: the token `constructor` is outside the
recognized vocabulary, yet it is not mapped to the recurrence rule of
`1h` — bracket access on the conversion object literal finds the inherited
`Object.prototype.constructor` member, which is truthy, so the `|| "1h"`
fallback never fires and intervalParaCron returns a non-string value. -/
theorem c3_contraexemplo_constructor :
    intervalParaCron "constructor" = JsValue.protoMember "constructor" ∧
    intervalParaCron "1h" = JsValue.str "0 * * * *" ∧
    intervalParaCron "constructor" ≠ intervalParaCron "1h" := by
  decide

/-- Claim C3 as amended: any interval token whose lowercased form is
outside the recognized vocabulary and is not a property name inherited
from the object prototype is mapped to the same recurrence rule as `1h`
(the hourly cron expression), and starting a monitor with such a token
installs a job with the same entity-to-cron mapping as starting with
`1h`. -/
theorem c3_token_desconhecido_cai_em_1h (t : String)
    (h1 : toLowerCase t ∉ tokensReconhecidos) (h2 : toLowerCase t ∉ objectPrototypeKeys)
    (e : String) (agora : Nat) (jobs : JobsAtivos) :
    intervalParaCron t = JsValue.str "0 * * * *" ∧
    intervalParaCron t = intervalParaCron "1h" ∧
    (iniciarMonitoramento e t agora jobs).map (fun p => (p.1, p.2.cronExpr)) =
      (iniciarMonitoramento e "1h" agora jobs).map (fun p => (p.1, p.2.cronExpr)) := by
  have hu := jsGet_eq_indefinido (toLowerCase t) h1 h2
  have h1h : intervalParaCron "1h" = JsValue.str "0 * * * *" := by decide
  have hcron : intervalParaCron t = JsValue.str "0 * * * *" := by
    simp only [intervalParaCron, hu, jsTruthy]
    decide
  refine ⟨hcron, hcron.trans h1h.symm, ?_⟩
  simp [iniciarMonitoramento, hcron, h1h]

/-- Witness for the amended claim C3 at a concrete garbage token. -/
theorem c3_token_desconhecido_cai_em_1h_witness :
    intervalParaCron "garbage-token" = JsValue.str "0 * * * *" :=
  (c3_token_desconhecido_cai_em_1h "garbage-token" (by decide) (by decide)
    "Empresa X" 0 []).1

/-- Claim C4: the fetch/parse output never holds a record with an empty
title — a card whose trimmed title is empty is discarded whatever its
other fields hold — and every kept record receives the default values for
a missing description, status, date and location. -/
theorem c4_titulo_vazio_descartado (empresa agoraIso : String) (agora : Nat)
    (cards : List Card) :
    (∀ r ∈ extrairReclamacoes empresa agoraIso agora cards, r.titulo ≠ "") ∧
    (∀ c : Card, trimText c.tituloRaw = "" → parseCard empresa agoraIso agora c = none) ∧
    (∀ (c : Card) (r : Reclamacao), parseCard empresa agoraIso agora c = some r →
      (trimText c.descricaoRaw = "" → r.descricao = "Sem descrição") ∧
      (trimText c.statusRaw = "" → r.status = "Não informado") ∧
      (trimText c.dataRaw = "" → r.data = agoraIso) ∧
      (trimText c.localRaw = "" → r.«local» = "Não informado")) := by
  refine ⟨?_, ?_, ?_⟩
  · intro r hr
    obtain ⟨c, _, hpc⟩ := List.mem_filterMap.mp hr
    unfold parseCard at hpc
    by_cases ht : trimText c.tituloRaw = ""
    · simp [ht] at hpc
    · simp only [ht, ne_eq, not_false_iff, if_true, Option.some.injEq] at hpc
      subst hpc
      simpa using ht
  · intro c h
    unfold parseCard
    simp [h]
  · intro c r hpc
    unfold parseCard at hpc
    by_cases ht : trimText c.tituloRaw = ""
    · simp [ht] at hpc
    · simp only [ht, ne_eq, not_false_iff, if_true, Option.some.injEq] at hpc
      subst hpc
      refine ⟨fun h => ?_, fun h => ?_, fun h => ?_, fun h => ?_⟩ <;> simp [h]

/-- Witness for claim C4 at a concrete card whose title trims to empty. -/
theorem c4_titulo_vazio_descartado_witness :
    parseCard "Empresa X" "2024-01-01" 0 ⟨"   ", "corpo", "andamento", "ontem", "cidade", none⟩ =
      none :=
  (c4_titulo_vazio_descartado "Empresa X" "2024-01-01" 0 []).2.1
    ⟨"   ", "corpo", "andamento", "ontem", "cidade", none⟩ (by decide)

/-- Claim C5: the fetch fails with the not-found error on upstream status
404, with the blocked error on status 403, with the network error when the
request got no response, and with an unknown-response error carrying the
upstream status on any other response error; a successful response whose
card selector matches zero nodes yields the empty list, not a failure. -/
theorem c5_classificacao_de_falhas (nome agoraIso : String) (agora : Nat) :
    buscarReclamacoes nome agoraIso agora (.responseError 404) = .error .notFound ∧
    buscarReclamacoes nome agoraIso agora (.responseError 403) = .error .blocked ∧
    buscarReclamacoes nome agoraIso agora .requestError = .error .network ∧
    (∀ status : Nat, status ≠ 404 → status ≠ 403 →
      buscarReclamacoes nome agoraIso agora (.responseError status) =
        .error (.unknownResponse status)) ∧
    buscarReclamacoes nome agoraIso agora (.success []) = .ok [] := by
  refine ⟨rfl, rfl, rfl, ?_, rfl⟩
  intro status h4 h3
  simp [buscarReclamacoes, h4, h3]

/-- Witness for claim C5 at a concrete other-error status. -/
theorem c5_classificacao_de_falhas_witness :
    buscarReclamacoes "Empresa X" "2024-01-01" 0 (.responseError 500) =
      .error (.unknownResponse 500) :=
  (c5_classificacao_de_falhas "Empresa X" "2024-01-01" 0).2.2.2.1 500 (by decide) (by decide)

/-- Claim C8: one fetch produces at most CONFIG.MAX_RECLAMACOES = 20
records — the card loop stops scanning at the cap, so only the first 20
selected nodes are ever examined. -/
theorem c8_maximo_20_por_busca (empresa agoraIso : String) (agora : Nat) (cards : List Card) :
    (extrairReclamacoes empresa agoraIso agora cards).length ≤ CONFIG_MAX_RECLAMACOES ∧
    CONFIG_MAX_RECLAMACOES = 20 ∧
    extrairReclamacoes empresa agoraIso agora cards =
      extrairReclamacoes empresa agoraIso agora (cards.take CONFIG_MAX_RECLAMACOES) ∧
    buscarReclamacoes empresa agoraIso agora (.success cards) =
      .ok (extrairReclamacoes empresa agoraIso agora cards) := by
  refine ⟨?_, rfl, ?_, rfl⟩
  · calc (extrairReclamacoes empresa agoraIso agora cards).length
        ≤ (cards.take CONFIG_MAX_RECLAMACOES).length := List.length_filterMap_le _ _
      _ ≤ CONFIG_MAX_RECLAMACOES := List.length_take_le _ _
  · simp [extrairReclamacoes, List.take_take]

/-- Claim C9: the stored-complaints query returns at most `limite` records,
all of the requested entity, sorted by collection timestamp descending, and
the limit defaults to 50 when the caller passes none. -/
theorem c9_consulta_ordenada_e_limitada (tabela : List Reclamacao) (empresa : String)
    (limite : Nat) :
    (buscarReclamacoesDB tabela empresa limite).length ≤ limite ∧
    (∀ r ∈ buscarReclamacoesDB tabela empresa limite, r.empresa = empresa) ∧
    (buscarReclamacoesDB tabela empresa limite).Pairwise coletadoDesc ∧
    buscarReclamacoesDB tabela empresa = buscarReclamacoesDB tabela empresa 50 := by
  refine ⟨?_, ?_, ?_, rfl⟩
  · exact List.length_take_le limite
      (List.insertionSort coletadoDesc (tabela.filter fun r => r.empresa == empresa))
  · intro r hr
    have hr1 : r ∈ List.insertionSort coletadoDesc
        (tabela.filter fun r => r.empresa == empresa) :=
      List.take_subset _ _ hr
    have hr2 : r ∈ tabela.filter fun r => r.empresa == empresa :=
      (List.perm_insertionSort coletadoDesc _).mem_iff.mp hr1
    exact eq_of_beq (List.mem_filter.mp hr2).2
  · have hs : List.Sorted coletadoDesc
        (List.insertionSort coletadoDesc (tabela.filter fun r => r.empresa == empresa)) :=
      List.sorted_insertionSort coletadoDesc _
    exact hs.sublist (List.take_sublist _ _)

/-- Witness for claim C9 at the sample table. -/
theorem c9_consulta_ordenada_e_limitada_witness :
    recExemplo.empresa = "Empresa X" :=
  (c9_consulta_ordenada_e_limitada tabelaExemplo "Empresa X" 5).2.1 recExemplo (by decide)

/-- The configuration upsert always leaves a row for the entity with the
given interval and the active flag set. -/
theorem salvarConfiguracao_mem (e i : String) (agora : Nat) (l : List ConfigRow) :
    ∃ c ∈ salvarConfiguracao e i agora l,
      c.empresa = e ∧ c.intervalo = i ∧ c.ativo = true := by
  unfold salvarConfiguracao
  split
  · rename_i hany
    obtain ⟨c, hc, hcE⟩ := List.any_eq_true.mp hany
    refine ⟨{ c with intervalo := i, ativo := true, atualizadoEm := agora },
      List.mem_map.mpr ⟨c, hc, by simp [hcE]⟩, ?_, rfl, rfl⟩
    simpa using eq_of_beq hcE
  · exact ⟨⟨e, i, true, agora, agora⟩, by simp, rfl, rfl, rfl⟩

/-- Claim C6: on a start command the desired state (entity, interval,
active) is written to the configuration ledger before the in-memory job is
touched — a failing ledger write makes the route answer the 500 error
carrying the storage message and leave the whole state, jobs included,
untouched; a successful write leaves an active ledger row for the entity
and an installed job for it. -/
theorem c6_ledger_antes_do_job (e i m : String) (he : e ≠ "") (hi : i ≠ "")
    (agora : Nat) (st : AppState) :
    postIniciar (some e) (some i) (.fail m) agora st =
      (Resposta.serverError "Erro ao iniciar monitoramento" m, st) ∧
    (∃ c ∈ (postIniciar (some e) (some i) .ok agora st).2.configuracoes,
      c.empresa = e ∧ c.intervalo = i ∧ c.ativo = true) ∧
    (∃ j ∈ (postIniciar (some e) (some i) .ok agora st).2.jobs,
      j.1 = e ∧ j.2.intervalo = i ∧ j.2.iniciado = agora) := by
  have hfe : jsFalsyStr (some e) = false := by simp [jsFalsyStr, he]
  have hfi : jsFalsyStr (some i) = false := by simp [jsFalsyStr, hi]
  refine ⟨?_, ?_, ?_⟩
  · simp [postIniciar, hfe, hfi]
  · simpa [postIniciar, hfe, hfi] using salvarConfiguracao_mem e i agora st.configuracoes
  · refine ⟨(e, ⟨i, agora, intervalParaCron i⟩), ?_, rfl, rfl, rfl⟩
    simp [postIniciar, hfe, hfi, iniciarMonitoramento]

/-- Witness for claim C6 at a concrete failing ledger write. -/
theorem c6_ledger_antes_do_job_witness :
    postIniciar (some "Empresa X") (some "1h") (.fail "conexao perdida") 3 ⟨[], []⟩ =
      (Resposta.serverError "Erro ao iniciar monitoramento" "conexao perdida", ⟨[], []⟩) :=
  (c6_ledger_antes_do_job "Empresa X" "1h" "conexao perdida" (by decide) (by decide)
    3 ⟨[], []⟩).1

/-- The job map after a stop is the map with the entity filtered out —
also when no job was found, since then the filter keeps everything. -/
theorem pararMonitoramento_snd (e : String) (jobs : JobsAtivos) :
    (pararMonitoramento e jobs).2 = jobs.filter (fun p => !(p.1 == e)) := by
  cases hany : jobs.any (fun p => p.1 == e) with
  | true => simp [pararMonitoramento, hany]
  | false =>
      have hfilter : jobs.filter (fun p => !(p.1 == e)) = jobs :=
        List.filter_eq_self.mpr fun p hp => by
          have h1 := List.any_eq_false.mp hany p hp
          cases hpe : (p.1 == e) with
          | true => exact absurd hpe h1
          | false => simp [hpe]
      simp [pararMonitoramento, hany, hfilter]

/-- pararMonitoramento reports whether a job for the entity existed. -/
theorem pararMonitoramento_fst (e : String) (jobs : JobsAtivos) :
    (pararMonitoramento e jobs).1 = jobs.any (fun p => p.1 == e) := by
  cases hany : jobs.any (fun p => p.1 == e) <;> simp [pararMonitoramento, hany]

/-- Claim C7: the stop command leaves the configuration ledger untouched —
it only cancels and removes the in-memory job, pararMonitoramento reports
whether one was found, and the route answers success either way. -/
theorem c7_parar_nao_toca_ledger (e : String) (he : e ≠ "") (st : AppState) :
    (postParar (some e) st).2.configuracoes = st.configuracoes ∧
    (postParar (some e) st).2.jobs = st.jobs.filter (fun p => !(p.1 == e)) ∧
    (pararMonitoramento e st.jobs).1 = st.jobs.any (fun p => p.1 == e) ∧
    (postParar (some e) st).1 = Resposta.ok ("Monitoramento parado para " ++ e) := by
  have hfe : jsFalsyStr (some e) = false := by simp [jsFalsyStr, he]
  refine ⟨?_, ?_, pararMonitoramento_fst e st.jobs, ?_⟩
  · simp [postParar, hfe]
  · simp [postParar, hfe, pararMonitoramento_snd]
  · simp [postParar, hfe]

/-- Witness for claim C7 at a concrete state holding one job. -/
theorem c7_parar_nao_toca_ledger_witness :
    (postParar (some "Empresa X")
        ⟨[⟨"Empresa X", "1h", true, 0, 0⟩],
         [("Empresa X", ⟨"1h", 0, JsValue.str "0 * * * *"⟩)]⟩).2.configuracoes =
      [⟨"Empresa X", "1h", true, 0, 0⟩] :=
  (c7_parar_nao_toca_ledger "Empresa X" (by decide)
    ⟨[⟨"Empresa X", "1h", true, 0, 0⟩],
     [("Empresa X", ⟨"1h", 0, JsValue.str "0 * * * *"⟩)]⟩).1

end ReclameAqui
